import Mathlib

/-!
# Verification of the ai-prompt-wrapper execution core

Shallow embedding of the request-execution core of the `ai-prompt-wrapper`
TypeScript library: the error classes (`src/errors.ts`), the retry
classification and environment parsing (`src/utils.ts`), the client
constructor, retry/backoff engine, timeout guard, hook dispatch,
provider-call orchestration, sentiment parsing and streaming entry point
(`src/index.ts` / `AIClient`).

Modelling conventions:
* JavaScript error objects are the inductive `JSErr`, with one constructor
  per error class of `src/errors.ts` plus `generic` for arbitrary
  provider-thrown errors carrying the fields the code inspects
  (`status`, `statusCode`, `response.status`, `code`, `message`).
* JavaScript `undefined` on optional values is `Option.none`; the
  distinction between an absent object key and a key explicitly present
  with value `undefined` (which matters for object spread in the
  constructor) is the three-valued `JSVal`.
* JavaScript truthiness at the points the code tests it is modelled
  explicitly: `""` and `0` are falsy (`jsOrStr`, `jsOrInt`, `jsOrNat`,
  `truthyStr`).
* Numbers are `Nat`/`Int`/`Rat`; environment numeric variables are
  modelled as already holding their numeric value (a variable set to a
  non-numeric string, which JS parses to `NaN`, is outside the model;
  no claim depends on it).
* Asynchronous execution is modelled by traces: one provider call
  produces a `List CPEvent` of observable events (hook invocations,
  backoff sleeps, attempt starts, stream chunk yields) plus a final
  `Except` outcome.  An attempt's interaction with the timeout guard is
  the `AttemptBehavior` of the underlying work: either it settles after
  some elapsed time or it never settles.
-/

namespace AIPW

/-- JavaScript error values as inspected by the library.  `generic` is an
arbitrary (provider-thrown) error with the fields read by
`isRetryableError`; the other constructors are the classes of
`src/errors.ts`.  `TimeoutError` passes no status code to `super`, and
`RetryError` passes `undefined` as status code, so neither carries one. -/
inductive JSErr : Type where
  | generic (message : String) (status statusCode responseStatus : Option Int)
      (code : Option String) : JSErr
  | aiClientError (message : String) (provider : Option String)
      (statusCode : Option Int) (originalError : Option JSErr) : JSErr
  | timeoutError (message : String) (provider : Option String) : JSErr
  | retryError (message : String) (retries : Nat) (provider : Option String)
      (originalError : Option JSErr) : JSErr

/-- Reading the `.message` property. -/
def JSErr.message : JSErr → String
  | .generic m _ _ _ _ => m
  | .aiClientError m _ _ _ => m
  | .timeoutError m _ => m
  | .retryError m _ _ _ => m

/-- Reading the `.status` property (only arbitrary provider errors carry
one; the library's own error classes do not define it). -/
def JSErr.status : JSErr → Option Int
  | .generic _ st _ _ _ => st
  | _ => none

/-- Reading the `.statusCode` property.  `AIClientError` declares it;
`TimeoutError` and `RetryError` leave it `undefined` in their `super`
calls. -/
def JSErr.statusCode : JSErr → Option Int
  | .generic _ _ sc _ _ => sc
  | .aiClientError _ _ sc _ => sc
  | _ => none

/-- Reading the `.response?.status` property. -/
def JSErr.responseStatus : JSErr → Option Int
  | .generic _ _ _ rs _ => rs
  | _ => none

/-- Reading the `.code` property (network error codes). -/
def JSErr.code : JSErr → Option String
  | .generic _ _ _ _ c => c
  | _ => none

/-- Reading the `.retries` property of a `RetryError`. -/
def JSErr.retries : JSErr → Option Nat
  | .retryError _ r _ _ => some r
  | _ => none

/-- Reading the `.originalError` property. -/
def JSErr.originalError : JSErr → Option JSErr
  | .aiClientError _ _ _ o => o
  | .retryError _ _ _ o => o
  | _ => none

/-- JavaScript `a || b` on numbers-or-undefined: `undefined` and `0` are
falsy. -/
def jsOrInt (a b : Option Int) : Option Int :=
  match a with
  | some n => if n = 0 then b else some n
  | none => b

/-- JavaScript `a || b` on strings-or-undefined: `undefined` and `""` are
falsy. -/
def jsOrStr (a b : Option String) : Option String :=
  match a with
  | some s => if s = "" then b else some s
  | none => b

/-- JavaScript `a || d` with a number default: `undefined` and `0` fall
back to the default. -/
def jsOrNat (a : Option Nat) (d : Nat) : Nat :=
  match a with
  | some n => if n = 0 then d else n
  | none => d

/-- Truthiness of a string-or-undefined value. -/
def truthyStr (a : Option String) : Bool :=
  match a with
  | some s => decide (s ≠ "")
  | none => false

/-- `isRetryableError` from `src/utils.ts`.  The argument is
`Option JSErr` so that the `if (!error) return false` guard on a
`null`/`undefined` argument is representable. -/
def isRetryableError (error : Option JSErr) : Bool :=
  match error with
  | none => false
  | some e =>
    match jsOrInt e.status (jsOrInt e.statusCode e.responseStatus) with
    | some sc =>
      if sc ≠ 0 then
        decide (sc = 429) || (decide (500 ≤ sc) && decide (sc < 600))
      else
        decide (e.code = some "ECONNRESET") || decide (e.code = some "ETIMEDOUT")
          || decide (e.code = some "ENOTFOUND")
    | none =>
      decide (e.code = some "ECONNRESET") || decide (e.code = some "ETIMEDOUT")
        || decide (e.code = some "ENOTFOUND")

/-- A JavaScript object field that can be absent, present with value
`undefined`, or present with a value.  The distinction between `absent`
and `undefined` matters for object spread: spreading copies a key present
with value `undefined` and thereby overrides an earlier default. -/
inductive JSVal (α : Type) : Type where
  | absent : JSVal α
  | undefined : JSVal α
  | val (a : α) : JSVal α
deriving DecidableEq

/-- Field value after `{ default, ...config }` for a key that has a
default: an absent key keeps the default, a key present with `undefined`
overrides it with `undefined`. -/
def JSVal.withDefault {α : Type} (v : JSVal α) (d : α) : Option α :=
  match v with
  | .absent => some d
  | .undefined => none
  | .val a => some a

/-- Field value after spread for a key with no default. -/
def JSVal.toOption {α : Type} (v : JSVal α) : Option α :=
  match v with
  | .absent => none
  | .undefined => none
  | .val a => some a

/-- The configuration object handed to the `AIClient` constructor
(`AIClientConfig`, with field presence tracked). -/
structure RawConfig where
  provider : String
  apiKey : String
  model : JSVal String := .absent
  temperature : JSVal Rat := .absent
  maxTokens : JSVal Nat := .absent
  baseUrl : JSVal String := .absent
  timeout : JSVal Nat := .absent
  maxRetries : JSVal Nat := .absent
  retryDelay : JSVal Nat := .absent
deriving DecidableEq

/-- The configuration stored in `this.config` after construction. -/
structure StoredConfig where
  provider : String
  apiKey : String
  model : Option String := none
  temperature : Option Rat := none
  maxTokens : Option Nat := none
  baseUrl : Option String := none
  timeout : Option Nat := none
  maxRetries : Option Nat := none
  retryDelay : Option Nat := none
deriving DecidableEq

/-- The `AIClient` constructor (`src/index.ts`): reject an empty API key,
merge defaults by object spread, default the model per provider when the
stored model is falsy, and reject unrecognized providers.  Failure is the
synchronously thrown `AIClientError`; no provider/network activity is
modelled because none occurs in the constructor. -/
def AIClient.construct (config : RawConfig) : Except JSErr StoredConfig :=
  if config.apiKey = "" then
    Except.error (JSErr.aiClientError "API key is required" none none none)
  else
    let cfg : StoredConfig := {
      provider := config.provider
      apiKey := config.apiKey
      model := config.model.toOption
      temperature := config.temperature.withDefault (mkRat 7 10)
      maxTokens := config.maxTokens.toOption
      baseUrl := config.baseUrl.toOption
      timeout := config.timeout.withDefault 30000
      maxRetries := config.maxRetries.withDefault 3
      retryDelay := config.retryDelay.withDefault 1000 }
    let cfg : StoredConfig :=
      if truthyStr cfg.model then cfg
      else if cfg.provider = "openai" then { cfg with model := some "gpt-4o-mini" }
      else if cfg.provider = "gemini" then { cfg with model := some "gemini-pro" }
      else cfg
    if cfg.provider = "openai" then Except.ok cfg
    else if cfg.provider = "gemini" then Except.ok cfg
    else Except.error (JSErr.aiClientError ("Unsupported provider: " ++ cfg.provider) none none none)

/-- The process environment as read by `parseEnvConfig`
(`src/utils.ts`).  String variables are `Option String` (`none` =
unset).  Numeric variables are modelled as already parsed: `some q`
means the variable is set to a numeric string with value `q`; an unset
or empty variable is `none` (both are falsy at the only read site). -/
structure Env where
  AI_PROVIDER : Option String := none
  PROVIDER : Option String := none
  OPENAI_API_KEY : Option String := none
  GEMINI_API_KEY : Option String := none
  GOOGLE_AI_API_KEY : Option String := none
  AI_MODEL : Option String := none
  MODEL : Option String := none
  AI_TEMPERATURE : Option Rat := none
  AI_MAX_TOKENS : Option Nat := none
  AI_TIMEOUT : Option Nat := none
  AI_MAX_RETRIES : Option Nat := none
deriving DecidableEq

/-- The object literal returned by `parseEnvConfig`: the keys `provider`,
`apiKey`, `model`, `temperature`, `maxTokens`, `timeout` and `maxRetries`
are always own properties of the result (possibly with value
`undefined`); `retryDelay` and `baseUrl` are never present. -/
structure EnvConfig where
  provider : Option String
  apiKey : Option String
  model : JSVal String
  temperature : JSVal Rat
  maxTokens : JSVal Nat
  timeout : JSVal Nat
  maxRetries : JSVal Nat
deriving DecidableEq

/-- A present-or-undefined object value (for keys that are always written
into the returned object literal). -/
def optToJS {α : Type} : Option α → JSVal α
  | some a => .val a
  | none => .undefined

/-- `parseEnvConfig` from `src/utils.ts`: resolve provider and API key
(with auto-detection when no provider variable is set) and carry the
remaining variables through.  Every returned key is present on the
object, with value `undefined` when the variable is unset. -/
def parseEnvConfig (env : Env) : EnvConfig :=
  let provider := jsOrStr env.AI_PROVIDER env.PROVIDER
  let openaiKey := env.OPENAI_API_KEY
  let geminiKey := jsOrStr env.GEMINI_API_KEY env.GOOGLE_AI_API_KEY
  let model := jsOrStr env.AI_MODEL env.MODEL
  let pk : Option String × Option String :=
    if provider = some "openai" ∧ truthyStr openaiKey then (provider, openaiKey)
    else if provider = some "gemini" ∧ truthyStr geminiKey then (provider, geminiKey)
    else if ¬ truthyStr provider then
      if truthyStr openaiKey then (some "openai", openaiKey)
      else if truthyStr geminiKey then (some "gemini", geminiKey)
      else (provider, none)
    else (provider, none)
  { provider := pk.1
    apiKey := pk.2
    model := optToJS model
    temperature := optToJS env.AI_TEMPERATURE
    maxTokens := optToJS env.AI_MAX_TOKENS
    timeout := optToJS env.AI_TIMEOUT
    maxRetries := optToJS env.AI_MAX_RETRIES }

/-- `AIClient.fromEnv`: parse the environment, fail when provider or API
key is missing (falsy), otherwise construct the client from the parsed
object (the object is passed as-is, so its explicitly-`undefined` keys
take part in the constructor's spread). -/
def AIClient.fromEnv (env : Env) : Except JSErr StoredConfig :=
  let ec := parseEnvConfig env
  if ¬ truthyStr ec.provider ∨ ¬ truthyStr ec.apiKey then
    Except.error (JSErr.aiClientError
      "Missing required environment variables. Set AI_PROVIDER (or PROVIDER) and corresponding API key (OPENAI_API_KEY or GEMINI_API_KEY)"
      none none none)
  else
    AIClient.construct {
      provider := ec.provider.getD ""
      apiKey := ec.apiKey.getD ""
      model := ec.model
      temperature := ec.temperature
      maxTokens := ec.maxTokens
      baseUrl := JSVal.absent
      timeout := ec.timeout
      maxRetries := ec.maxRetries
      retryDelay := JSVal.absent }

/-- Effective max retry count: `this.config.maxRetries || 3` (so both an
`undefined` and a configured `0` fall back to `3`). -/
def effMaxRetries (cfg : StoredConfig) : Nat := jsOrNat cfg.maxRetries 3

/-- Effective base backoff delay: `this.config.retryDelay || 1000`. -/
def effRetryDelay (cfg : StoredConfig) : Nat := jsOrNat cfg.retryDelay 1000

/-- Effective timeout: `this.config.timeout || 30000`. -/
def effTimeout (cfg : StoredConfig) : Nat := jsOrNat cfg.timeout 30000

/-- How one invocation of the wrapped asynchronous work behaves against
wall-clock time: it settles (fulfilled or rejected) after `elapsed`
milliseconds, or it never settles. -/
inductive AttemptBehavior (T : Type) : Type where
  | completes (elapsed : Nat) (result : Except JSErr T) : AttemptBehavior T
  | never : AttemptBehavior T

/-- The message of the timeout guard's `TimeoutError`. -/
def timeoutMessage (cfg : StoredConfig) : String :=
  "Request timed out after " ++ toString (effTimeout cfg) ++ "ms"

/-- `AIClient.executeWithTimeout`: race the work against a timer of
`config.timeout || 30000` ms.  Whichever settles first decides the
outcome; a lost race produces a `TimeoutError` carrying the provider
name and no status code. -/
def executeWithTimeout {T : Type} (cfg : StoredConfig) (work : AttemptBehavior T) :
    Except JSErr T :=
  match work with
  | .completes elapsed r =>
    if elapsed < effTimeout cfg then r
    else Except.error (JSErr.timeoutError (timeoutMessage cfg) (some cfg.provider))
  | .never => Except.error (JSErr.timeoutError (timeoutMessage cfg) (some cfg.provider))

/-- The attempt outcomes the retry loop sees: attempt `i` is the
timeout-guarded run of the work's `i`-th invocation. -/
def guardedAttempts {T : Type} (cfg : StoredConfig) (B : Nat → AttemptBehavior T)
    (i : Nat) : Except JSErr T :=
  executeWithTimeout cfg (B i)

/-- A chat result (`ChatResult` of `src/types.ts`). -/
structure ChatResult where
  content : String
  tokensUsed : Option Nat := none
  model : Option String := none
  finishReason : Option String := none
  provider : Option String := none
deriving DecidableEq

/-- A streamed chunk (`ChatStreamChunk` of `src/types.ts`). -/
structure ChatStreamChunk where
  content : String
  done : Bool
deriving DecidableEq

/-- Observable events of one orchestrated call, in execution order:
dispatch of one request hook, start of a retry attempt, dispatch of one
error hook with the failure it receives, a backoff sleep, construction
of the terminal `RetryError`, dispatch of one response hook with the
result it receives, and one yielded stream chunk. -/
inductive CPEvent : Type where
  | requestDispatch (hook : Nat) : CPEvent
  | attemptStarted (attempt : Nat) : CPEvent
  | errorDispatch (hook : Nat) (err : JSErr) : CPEvent
  | sleep (ms : Nat) : CPEvent
  | retryErrorBuilt (err : JSErr) : CPEvent
  | responseDispatch (hook : Nat) (result : ChatResult) : CPEvent
  | chunkYield (chunk : ChatStreamChunk) : CPEvent

/-- Dispatching a failure to every registered error hook, in
registration order (hook exceptions are swallowed, so dispatch always
reaches every hook). -/
def errDispatch (nErr : Nat) (e : JSErr) : List CPEvent :=
  (List.range nErr).map (fun i => CPEvent.errorDispatch i e)

/-- The message of the retry-exhausted error:
`` `Failed after ${maxRetries} retries: ${error.message}` ``. -/
def retryMessage (maxRetries : Nat) (m : String) : String :=
  "Failed after " ++ toString maxRetries ++ " retries: " ++ m

/-- The body of `AIClient.executeWithRetry`'s `for` loop, recursing on
the number of loop iterations still permitted (`remaining` =
`maxRetries + 1 - attempt` at the top-level call, so the `remaining = 0`
case is the unreachable code after the loop:
`throw lastError || new AIClientError(...)`).  Each failed attempt
dispatches the raw failure to every error hook, then either sleeps
`retryDelay * 2 ^ attempt` and retries (retryable failure with attempts
left), throws the terminal `RetryError` (final attempt), or rethrows the
original failure unchanged. -/
def retryGo {T : Type} (A : Nat → Except JSErr T) (maxRetries retryDelay nErr : Nat)
    (provider operation : String) :
    Nat → Nat → Option JSErr → List CPEvent × Except JSErr T
  | _, 0, lastError =>
    ([], Except.error (lastError.getD
      (JSErr.aiClientError ("Failed to execute " ++ operation) none none none)))
  | attempt, remaining + 1, _ =>
    match A attempt with
    | Except.ok v => ([CPEvent.attemptStarted attempt], Except.ok v)
    | Except.error e =>
      if attempt < maxRetries ∧ isRetryableError (some e) = true then
        let rest := retryGo A maxRetries retryDelay nErr provider operation
          (attempt + 1) remaining (some e)
        (CPEvent.attemptStarted attempt :: errDispatch nErr e
          ++ CPEvent.sleep (retryDelay * 2 ^ attempt) :: rest.1, rest.2)
      else if attempt = maxRetries then
        let r := JSErr.retryError (retryMessage maxRetries e.message) maxRetries
          (some provider) (some e)
        (CPEvent.attemptStarted attempt :: errDispatch nErr e
          ++ [CPEvent.retryErrorBuilt r], Except.error r)
      else
        (CPEvent.attemptStarted attempt :: errDispatch nErr e, Except.error e)

/-- `AIClient.executeWithRetry`: run the loop from attempt 0 with
`maxRetries = config.maxRetries || 3` iterations past the first. -/
def executeWithRetry {T : Type} (cfg : StoredConfig) (nErr : Nat) (operation : String)
    (A : Nat → Except JSErr T) : List CPEvent × Except JSErr T :=
  retryGo A (effMaxRetries cfg) (effRetryDelay cfg) nErr cfg.provider operation
    0 (effMaxRetries cfg + 1) none

/-- The metadata decoration `AIClient.callProvider` applies to the value
it returns: `provider` is overwritten with the configured provider name
and `model` becomes `result.model || this.config.model`. -/
def decorate (cfg : StoredConfig) (result : ChatResult) : ChatResult :=
  { result with
    provider := some cfg.provider
    model := jsOrStr result.model cfg.model }

/-- `AIClient.callProvider`: dispatch every request hook, run the
timeout-guarded provider call under the retry engine, and on success
dispatch every response hook with the result obtained from the retry
engine, returning the decorated copy; on failure propagate the error. -/
def callProvider (cfg : StoredConfig) (nReq nResp nErr : Nat)
    (B : Nat → AttemptBehavior ChatResult) : List CPEvent × Except JSErr ChatResult :=
  let reqEvts := (List.range nReq).map CPEvent.requestDispatch
  let r := executeWithRetry cfg nErr "chat" (guardedAttempts cfg B)
  match r.2 with
  | Except.ok result =>
    (reqEvts ++ r.1 ++ (List.range nResp).map (fun i => CPEvent.responseDispatch i result),
      Except.ok (decorate cfg result))
  | Except.error e => (reqEvts ++ r.1, Except.error e)

/-- `AIClient.chatStream` (the body of the async generator): when the
provider has no `chatStream` capability (`providerStream = none`), fail
with the streaming-unsupported `AIClientError` before dispatching any
request hook.  Otherwise dispatch the request hooks, forward the
provider's chunks unchanged, and on a mid-iteration failure dispatch the
error hooks and re-raise the failure wrapped as a streaming
`AIClientError` tagged with the provider. -/
def AIClient.chatStream (cfg : StoredConfig) (nReq nErr : Nat)
    (providerStream : Option (List ChatStreamChunk × Option JSErr)) :
    List CPEvent × Except JSErr Unit :=
  match providerStream with
  | none =>
    ([], Except.error (JSErr.aiClientError "Streaming not supported by this provider"
      (some cfg.provider) none none))
  | some (chunks, tailErr) =>
    let reqEvts := (List.range nReq).map CPEvent.requestDispatch
    let yields := chunks.map CPEvent.chunkYield
    match tailErr with
    | none => (reqEvts ++ yields, Except.ok ())
    | some e =>
      (reqEvts ++ yields ++ errDispatch nErr e,
        Except.error (JSErr.aiClientError ("Streaming error: " ++ e.message)
          (some cfg.provider) none (some e)))

/-- The attempt indices started during a run, in order. -/
def attemptsOf (tr : List CPEvent) : List Nat :=
  tr.filterMap fun ev => match ev with
    | .attemptStarted i => some i
    | _ => none

/-- The backoff sleeps performed during a run, in order. -/
def sleepsOf (tr : List CPEvent) : List Nat :=
  tr.filterMap fun ev => match ev with
    | .sleep ms => some ms
    | _ => none

/-- The individual error-hook invocations of a run, in order: hook index
paired with the failure object the hook receives. -/
def errorHookCallsOf (tr : List CPEvent) : List (Nat × JSErr) :=
  tr.filterMap fun ev => match ev with
    | .errorDispatch i e => some (i, e)
    | _ => none

/-- The individual response-hook invocations of a run, in order. -/
def responseHookCallsOf (tr : List CPEvent) : List (Nat × ChatResult) :=
  tr.filterMap fun ev => match ev with
    | .responseDispatch i r => some (i, r)
    | _ => none

/-- The individual request-hook invocations of a run, in order. -/
def requestHookCallsOf (tr : List CPEvent) : List Nat :=
  tr.filterMap fun ev => match ev with
    | .requestDispatch i => some i
    | _ => none

/-- JavaScript `String.prototype.split` with a one-character separator:
the list of (possibly empty) fields between separator occurrences. -/
def jsSplitAux (sep : Char) : List Char → List Char → List String
  | [], acc => [String.mk acc.reverse]
  | c :: rest, acc =>
    if c = sep then String.mk acc.reverse :: jsSplitAux sep rest []
    else jsSplitAux sep rest (c :: acc)

/-- `s.split(sep)` for a one-character separator. -/
def jsSplit (s : String) (sep : Char) : List String :=
  jsSplitAux sep s.toList []

/-- JavaScript `String.prototype.trim` (on the whitespace characters
occurring in this development). -/
def jsTrim (s : String) : String :=
  String.mk (((s.toList.dropWhile Char.isWhitespace).reverse.dropWhile
    Char.isWhitespace).reverse)

/-- JavaScript `String.prototype.toLowerCase` (ASCII letters). -/
def jsToLower (s : String) : String :=
  String.mk (s.toList.map Char.toLower)

/-- The leading run of decimal digits of a character list, as digit
values, together with the remainder. -/
def takeDigits : List Char → List Nat × List Char
  | [] => ([], [])
  | c :: rest =>
    if c.isDigit then
      let (ds, r) := takeDigits rest
      ((c.toNat - 48) :: ds, r)
    else ([], c :: rest)

/-- The natural number denoted by a list of digit values. -/
def natOfDigits (ds : List Nat) : Nat :=
  ds.foldl (fun a d => a * 10 + d) 0

/-- JavaScript `parseFloat` on decimal notation: skip leading
whitespace, read an optional sign, an integer part, an optional
fractional part and an optional exponent, ignoring any trailing
characters; `none` is `NaN` (no digit could be read).  The special
literals `Infinity`/`NaN` are outside the model; no claim involves
them. -/
def jsParseFloat (s : String) : Option Rat :=
  let cs := s.toList.dropWhile Char.isWhitespace
  let sgn : Int × List Char :=
    match cs with
    | '-' :: r => (-1, r)
    | '+' :: r => (1, r)
    | _ => (1, cs)
  let ip : List Nat × List Char := takeDigits sgn.2
  let fp : List Nat × List Char :=
    match ip.2 with
    | '.' :: r => takeDigits r
    | _ => ([], ip.2)
  if ip.1 = [] ∧ fp.1 = [] then none
  else
    let mantNum : Int := natOfDigits ip.1 * 10 ^ fp.1.length + natOfDigits fp.1
    let expo : Int :=
      match fp.2 with
      | 'e' :: r | 'E' :: r =>
        match r with
        | '-' :: r2 => -(natOfDigits (takeDigits r2).1 : Int)
        | '+' :: r2 => (natOfDigits (takeDigits r2).1 : Int)
        | _ => (natOfDigits (takeDigits r).1 : Int)
      | _ => 0
    match expo with
    | Int.ofNat k => some (mkRat (sgn.1 * mantNum * 10 ^ k) (10 ^ fp.1.length))
    | Int.negSucc k => some (mkRat (sgn.1 * mantNum) (10 ^ (fp.1.length + (k + 1))))

/-- The response-parsing step of `AIClient.classifySentiment`: split the
response text on `|`; only when that yields at least two parts are the
sentiment (first part, trimmed and lower-cased, kept only if it is one
of the three labels) and the score (second part through `parseFloat`,
clamped to `[0, 1]` when not `NaN`) read; otherwise both defaults
(`"neutral"`, `0.5`) stand. -/
def classifySentimentParse (content : String) : String × Rat :=
  let parts := jsSplit content '|'
  if 2 ≤ parts.length then
    let sent := jsToLower (jsTrim (parts.headD ""))
    let sentiment :=
      if sent = "positive" ∨ sent = "neutral" ∨ sent = "negative" then sent
      else "neutral"
    let score : Rat :=
      match jsParseFloat (jsTrim (parts.getD 1 "")) with
      | some q => max 0 (min 1 q)
      | none => mkRat 1 2
    (sentiment, score)
  else ("neutral", mkRat 1 2)

/-- Modelled from the words of claim C8 (and spec §4.5): the sentiment
is the first part whenever it is a valid label, the score is the second
part whenever it exists and parses, independently of each other. -/
def claimSentimentSpec (content : String) : String × Rat :=
  let parts := jsSplit content '|'
  let sent := jsToLower (jsTrim (parts.headD ""))
  let sentiment :=
    if sent = "positive" ∨ sent = "neutral" ∨ sent = "negative" then sent
    else "neutral"
  let score : Rat :=
    match parts.get? 1 with
    | some p =>
      match jsParseFloat (jsTrim p) with
      | some q => max 0 (min 1 q)
      | none => mkRat 1 2
    | none => mkRat 1 2
  (sentiment, score)

/-- The first truthy value among `error.status`, `error.statusCode`,
`error.response?.status`, in that order (what the `||` chain in
`isRetryableError` evaluates to when truthy). -/
def firstTruthyStatus (e : JSErr) : Option Int :=
  (([e.status, e.statusCode, e.responseStatus].filterMap id).filter
    (fun sc => decide (sc ≠ 0))).head?

/-- Modelled from the words of claim C4: retryable exactly when the
failure carries a qualifying status (429 or 5xx) on any recognized
status field, OR carries a recognized network error code; a disjunction
with neither side taking precedence. -/
def claimRetryableSpec : Option JSErr → Bool
  | none => false
  | some e =>
    ([e.status, e.statusCode, e.responseStatus].filterMap id).any
      (fun sc => decide (sc = 429) || (decide (500 ≤ sc) && decide (sc < 600)))
    || (decide (e.code = some "ECONNRESET") || decide (e.code = some "ETIMEDOUT")
        || decide (e.code = some "ENOTFOUND"))

/-- The amended classification rule: the status channel takes
precedence.  If a truthy status is present (first truthy among
`status`, `statusCode`, `response.status`), retryability is decided by
it alone (429 or 5xx); only in the absence of any truthy status does
the network error code decide; `null`/absent failures are not
retryable. -/
def amendedRetryableSpec : Option JSErr → Bool
  | none => false
  | some e =>
    match firstTruthyStatus e with
    | some sc => decide (sc = 429) || (decide (500 ≤ sc) && decide (sc < 600))
    | none =>
      decide (e.code = some "ECONNRESET") || decide (e.code = some "ETIMEDOUT")
        || decide (e.code = some "ENOTFOUND")

/-! ## Helper lemmas -/

theorem truthyStr_iff (o : Option String) :
    truthyStr o = true ↔ ∃ s, o = some s ∧ s ≠ "" := by
  rcases o with _ | s <;> simp [truthyStr]

/-! ## Claim C9 -/

/-- Claim C9 (confirmed): when the active provider has no `chatStream`
capability, the orchestrator's `chatStream` fails with the
streaming-unsupported `AIClientError` (tagged with the provider name)
and its trace is empty: no request hook is dispatched and no provider
activity (no chunk, no error dispatch) occurs. -/
theorem chatStream_unsupported_before_hooks (cfg : StoredConfig) (nReq nErr : Nat) :
    AIClient.chatStream cfg nReq nErr none =
      ([], Except.error (JSErr.aiClientError "Streaming not supported by this provider"
        (some cfg.provider) none none)) ∧
    requestHookCallsOf (AIClient.chatStream cfg nReq nErr none).1 = [] :=
  ⟨rfl, rfl⟩

/-! ## Claim C7 -/

/-- An environment that selects the openai provider and sets nothing
else. -/
def envC7 : Env := { AI_PROVIDER := some "openai", OPENAI_API_KEY := some "sk-test" }

/-- Claim C7 (code bug): a configuration produced by the environment
loader carries `temperature`, `maxTokens`, `timeout` and `maxRetries` as
keys explicitly present with value `undefined`; the constructor's object
spread copies them over the defaults, so the stored configuration keeps
them `undefined` instead of 0.7 / 3 / 30000 ms (only `retryDelay`, which
`parseEnvConfig` does not emit, receives its default).  Direct
construction from a config object without those keys does fill all four
defaults, witnessing the intent. -/
theorem fromEnv_defaults_not_filled :
    AIClient.fromEnv envC7 = Except.ok
      { provider := "openai", apiKey := "sk-test", model := some "gpt-4o-mini",
        temperature := none, maxTokens := none, timeout := none, maxRetries := none,
        retryDelay := some 1000 } ∧
    AIClient.construct { provider := "openai", apiKey := "sk-test" } = Except.ok
      { provider := "openai", apiKey := "sk-test", model := some "gpt-4o-mini",
        temperature := some (mkRat 7 10), maxTokens := none, timeout := some 30000,
        maxRetries := some 3, retryDelay := some 1000 } :=
  ⟨rfl, rfl⟩

/-! ## Claim C6 -/

/-- Claim C6 (confirmed): construction succeeds exactly when the API key
is non-empty and the provider identifier is recognized ("openai" or
"gemini"); whenever it succeeds, the stored model is a non-empty string
(the provider default is applied when the configured model is absent,
`undefined`, or empty). -/
theorem construct_ok_iff_and_model_nonempty (c : RawConfig) :
    ((∃ s, AIClient.construct c = Except.ok s) ↔
      (c.apiKey ≠ "" ∧ (c.provider = "openai" ∨ c.provider = "gemini"))) ∧
    (∀ s, AIClient.construct c = Except.ok s → ∃ m, s.model = some m ∧ m ≠ "") := by
  unfold AIClient.construct
  by_cases hk : c.apiKey = ""
  · simp [hk]
  · rw [if_neg hk]
    by_cases hm : truthyStr c.model.toOption = true
    · rcases (truthyStr_iff _).mp hm with ⟨m, hm1, hm2⟩
      by_cases hp1 : c.provider = "openai"
      · constructor
        · simp [hm, hp1, hk]
        · intro s hs
          simp [hm, hp1] at hs
          exact ⟨m, by rw [← hs]; exact hm1, hm2⟩
      · by_cases hp2 : c.provider = "gemini"
        · constructor
          · simp [hm, hp1, hp2, hk]
          · intro s hs
            simp [hm, hp1, hp2] at hs
            exact ⟨m, by rw [← hs]; exact hm1, hm2⟩
        · constructor
          · simp [hm, hp1, hp2, hk]
          · intro s hs
            simp [hm, hp1, hp2] at hs
    · rw [Bool.not_eq_true] at hm
      by_cases hp1 : c.provider = "openai"
      · constructor
        · simp [hm, hp1, hk]
        · intro s hs
          simp [hm, hp1] at hs
          exact ⟨"gpt-4o-mini", by rw [← hs], by decide⟩
      · by_cases hp2 : c.provider = "gemini"
        · constructor
          · simp [hm, hp1, hp2, hk]
          · intro s hs
            simp [hm, hp1, hp2] at hs
            exact ⟨"gemini-pro", by rw [← hs], by decide⟩
        · constructor
          · simp [hm, hp1, hp2, hk]
          · intro s hs
            simp [hm, hp1, hp2] at hs

/-- Witness for claim C6's theorem at a concrete configuration. -/
theorem construct_ok_witness :
    AIClient.construct { provider := "gemini", apiKey := "g-key" } = Except.ok
      { provider := "gemini", apiKey := "g-key", model := some "gemini-pro",
        temperature := some (mkRat 7 10), timeout := some 30000, maxRetries := some 3,
        retryDelay := some 1000 } ∧
    (∃ m, (some "gemini-pro" : Option String) = some m ∧ m ≠ "") :=
  ⟨rfl, (construct_ok_iff_and_model_nonempty
    { provider := "gemini", apiKey := "g-key" }).2 _ rfl⟩

/-! ## Claim C4 -/

/-- A failure carrying both a non-retryable HTTP status and a retryable
network error code. -/
def bothFieldsErr : JSErr :=
  JSErr.generic "not found" (some 404) none none (some "ECONNRESET")

/-- Claim C4 counterexample: a failure with `status = 404` and
`code = "ECONNRESET"` is classified NOT retryable by the code (the
truthy status short-circuits the code check), while the claim's
disjunctive reading ("... or carries network error code ECONNRESET")
makes it retryable. -/
theorem isRetryableError_claim_counterexample :
    isRetryableError (some bothFieldsErr) = false ∧
    claimRetryableSpec (some bothFieldsErr) = true :=
  ⟨rfl, rfl⟩

/-- Claim C4 (corrected): the classification gives the status channel
precedence.  `isRetryableError` coincides with the amended rule: if a
truthy status is present (first truthy among `status`, `statusCode`,
`response.status`) it alone decides (429 or [500, 600)); only with no
truthy status does the network code decide; `null` is never
retryable. -/
theorem isRetryableError_amended_spec (x : Option JSErr) :
    isRetryableError x = amendedRetryableSpec x := by
  rcases x with _ | e
  · rfl
  rcases e with ⟨m, a, b, c, cd⟩ | ⟨m, p, b, o⟩ | ⟨m, p⟩ | ⟨m, r, p, o⟩
  case timeoutError => rfl
  case retryError => rfl
  case aiClientError =>
    rcases b with _ | y
    · rfl
    · by_cases hy : y = 0 <;>
        simp [isRetryableError, amendedRetryableSpec, firstTruthyStatus, jsOrInt,
          JSErr.status, JSErr.statusCode, JSErr.responseStatus, JSErr.code, hy,
          List.filter, List.filterMap]
  case generic =>
    rcases a with _ | x0 <;> rcases b with _ | y <;> rcases c with _ | z <;>
      simp only [isRetryableError, amendedRetryableSpec, firstTruthyStatus,
        JSErr.status, JSErr.statusCode, JSErr.responseStatus, JSErr.code, jsOrInt,
        List.filterMap, id] <;>
      (try by_cases hx : x0 = 0) <;> (try by_cases hy : y = 0) <;>
      (try by_cases hz : z = 0) <;>
      simp_all [List.filter, List.head?]

/-! ## Claim C8 -/

/-- Claim C8 counterexample: the response `"positive"` (no `|`) yields
sentiment `"neutral"`, not `"positive"`: the code reads neither part
unless the split has at least two parts, while the claim takes the first
part whenever it is a valid label. -/
theorem classifySentimentParse_single_part_counterexample :
    classifySentimentParse "positive" = ("neutral", mkRat 1 2) ∧
    claimSentimentSpec "positive" = ("positive", mkRat 1 2) ∧
    classifySentimentParse "positive" ≠ claimSentimentSpec "positive" :=
  ⟨by decide, by decide, by decide⟩

/-- Claim C8 (corrected): the claimed parsing rule holds whenever the
split on `|` yields at least two parts; with fewer than two parts both
defaults stand regardless of the first part's content.  The claim's two
examples evaluate as stated: `"positive|0.95"` to
`(positive, 0.95)` and `"maybe"` to `(neutral, 0.5)`. -/
theorem classifySentimentParse_amended (content : String) :
    (2 ≤ (jsSplit content '|').length →
      classifySentimentParse content = claimSentimentSpec content) ∧
    ((jsSplit content '|').length < 2 →
      classifySentimentParse content = ("neutral", mkRat 1 2)) ∧
    classifySentimentParse "positive|0.95" = ("positive", mkRat 19 20) ∧
    classifySentimentParse "maybe" = ("neutral", mkRat 1 2) := by
  refine ⟨?_, ?_, by decide, by decide⟩
  · intro h
    unfold classifySentimentParse claimSentimentSpec
    have h1 : 1 < (jsSplit content '|').length := h
    obtain ⟨x, hx⟩ : ∃ x, (jsSplit content '|').get? 1 = some x :=
      ⟨_, List.get?_eq_get h1⟩
    have hgd : (jsSplit content '|').getD 1 "" = x := by
      rw [List.getD_eq_getElem?_getD, ← List.get?_eq_getElem?, hx]
      rfl
    simp only [if_pos h, hx, hgd]
  · intro h
    unfold classifySentimentParse
    rw [if_neg (by omega)]

/-- Witness for claim C8's theorem at the claim's own example input. -/
theorem classifySentimentParse_witness :
    2 ≤ (jsSplit "positive|0.95" '|').length ∧
    classifySentimentParse "positive|0.95" = claimSentimentSpec "positive|0.95" :=
  ⟨by decide, (classifySentimentParse_amended "positive|0.95").1 (by decide)⟩

/-! ## Trace lemmas for the retry engine -/

theorem attemptsOf_append (l1 l2 : List CPEvent) :
    attemptsOf (l1 ++ l2) = attemptsOf l1 ++ attemptsOf l2 :=
  List.filterMap_append l1 l2 _

theorem sleepsOf_append (l1 l2 : List CPEvent) :
    sleepsOf (l1 ++ l2) = sleepsOf l1 ++ sleepsOf l2 :=
  List.filterMap_append l1 l2 _

theorem attemptsOf_nil : attemptsOf [] = [] := rfl

theorem sleepsOf_nil : sleepsOf [] = [] := rfl

theorem attemptsOf_errDispatch (n : Nat) (e : JSErr) : attemptsOf (errDispatch n e) = [] := by
  simp [attemptsOf, errDispatch, List.filterMap_map]

theorem sleepsOf_errDispatch (n : Nat) (e : JSErr) : sleepsOf (errDispatch n e) = [] := by
  simp [sleepsOf, errDispatch, List.filterMap_map]

theorem attemptsOf_cons_started (i : Nat) (tr : List CPEvent) :
    attemptsOf (CPEvent.attemptStarted i :: tr) = i :: attemptsOf tr := rfl

theorem attemptsOf_cons_sleep (ms : Nat) (tr : List CPEvent) :
    attemptsOf (CPEvent.sleep ms :: tr) = attemptsOf tr := rfl

theorem attemptsOf_cons_built (r : JSErr) (tr : List CPEvent) :
    attemptsOf (CPEvent.retryErrorBuilt r :: tr) = attemptsOf tr := rfl

theorem sleepsOf_cons_started (i : Nat) (tr : List CPEvent) :
    sleepsOf (CPEvent.attemptStarted i :: tr) = sleepsOf tr := rfl

theorem sleepsOf_cons_sleep (ms : Nat) (tr : List CPEvent) :
    sleepsOf (CPEvent.sleep ms :: tr) = ms :: sleepsOf tr := rfl

theorem sleepsOf_cons_built (r : JSErr) (tr : List CPEvent) :
    sleepsOf (CPEvent.retryErrorBuilt r :: tr) = sleepsOf tr := rfl

theorem retryGo_stop {T : Type} (A : Nat → Except JSErr T) (mr rd nErr : Nat)
    (p op : String) (e : Nat → JSErr) (k : Nat) (ek : JSErr)
    (hAk : A k = Except.error ek)
    (hstop : isRetryableError (some ek) = false ∨ k = mr) :
    ∀ rem a last, a + rem = mr + 1 → a ≤ k → k ≤ mr →
      (∀ i, a ≤ i → i < k → A i = Except.error (e i)) →
      (∀ i, a ≤ i → i < k → isRetryableError (some (e i)) = true) →
      attemptsOf (retryGo A mr rd nErr p op a rem last).1 = List.range' a (k + 1 - a) ∧
      sleepsOf (retryGo A mr rd nErr p op a rem last).1 =
        (List.range' a (k - a)).map (fun i => rd * 2 ^ i) ∧
      (retryGo A mr rd nErr p op a rem last).2 =
        (if k = mr then
          Except.error (JSErr.retryError (retryMessage mr ek.message) mr (some p) (some ek))
        else Except.error ek) := by
  intro rem
  induction rem with
  | zero => intro a last hinv hak hkm _ _; omega
  | succ rem ih =>
    intro a last hinv hak hkm hpre hpreR
    rcases Nat.lt_or_ge a k with hlt | hge
    · -- a < k : this attempt fails retryable and the loop recurses
      have hAa : A a = Except.error (e a) := hpre a le_rfl hlt
      have hra : isRetryableError (some (e a)) = true := hpreR a le_rfl hlt
      have hamr : a < mr := lt_of_lt_of_le hlt hkm
      have ihres := ih (a + 1) (some (e a)) (by omega) (by omega) hkm
        (fun i h1 h2 => hpre i (by omega) h2)
        (fun i h1 h2 => hpreR i (by omega) h2)
      simp only [retryGo, hAa, if_pos (And.intro hamr hra)]
      refine ⟨?_, ?_, ihres.2.2⟩
      · have h1 : k + 1 - a = (k + 1 - (a + 1)) + 1 := by omega
        rw [h1, List.range']
        simp [attemptsOf_append, attemptsOf_cons_started, attemptsOf_errDispatch,
          attemptsOf_cons_sleep, ihres.1]
      · have h1 : k - a = (k - (a + 1)) + 1 := by omega
        rw [h1, List.range']
        simp [sleepsOf_append, sleepsOf_cons_started, sleepsOf_errDispatch,
          sleepsOf_cons_sleep, ihres.2.1]
    · -- a = k : this attempt's failure ends the loop
      have hae : a = k := le_antisymm (by omega) hge
      subst hae
      have hcond : ¬ (a < mr ∧ isRetryableError (some ek) = true) := by
        rcases hstop with h | h
        · rintro ⟨_, h2⟩; rw [h] at h2; exact Bool.false_ne_true h2
        · omega
      rcases Nat.eq_or_lt_of_le hkm with heq | hlt2
      · subst heq
        have h1 : a + 1 - a = 1 := by omega
        have h0 : a - a = 0 := by omega
        rw [h1, h0]
        simp only [retryGo, hAk, if_neg hcond]
        refine ⟨?_, ?_, ?_⟩
        · simp [attemptsOf_append, attemptsOf_cons_started, attemptsOf_errDispatch,
            attemptsOf_cons_built, attemptsOf_nil, List.range']
        · simp [sleepsOf_append, sleepsOf_cons_started, sleepsOf_errDispatch,
            sleepsOf_cons_built, sleepsOf_nil, List.range']
        · simp
      · have hne : a ≠ mr := by omega
        have h1 : a + 1 - a = 1 := by omega
        have h0 : a - a = 0 := by omega
        rw [h1, h0]
        simp only [retryGo, hAk, if_neg hcond, if_neg hne]
        refine ⟨?_, ?_, ?_⟩
        · simp [attemptsOf_cons_started, attemptsOf_errDispatch, List.range']
        · simp [sleepsOf_cons_started, sleepsOf_errDispatch, List.range']
        · simp [hne]


/-! ## Claim C2 -/

/-- A non-retryable provider failure (HTTP 400). -/
def err400 : JSErr := JSErr.generic "bad request" (some 400) none none none

/-- A retryable provider failure (HTTP 500). -/
def err500 : JSErr := JSErr.generic "server exploded" (some 500) none none none

/-- Claim C2 (corrected): when the failure of attempt `k` is classified
non-retryable (after `k` earlier retryable failures), no further attempt
is made; the original error object propagates unchanged when `k` is
before the final attempt index, but when the non-retryable failure lands
on the final attempt (`k` = effective maxRetries) it IS wrapped in a
`RetryError`. -/
theorem nonRetryable_stops_and_propagates {T : Type} (cfg : StoredConfig) (nErr : Nat)
    (op : String) (A : Nat → Except JSErr T) (e : Nat → JSErr) (k : Nat) (ek : JSErr)
    (hk : k ≤ effMaxRetries cfg)
    (hpre : ∀ i, i < k → A i = Except.error (e i))
    (hpreR : ∀ i, i < k → isRetryableError (some (e i)) = true)
    (hAk : A k = Except.error ek)
    (hNR : isRetryableError (some ek) = false) :
    attemptsOf (executeWithRetry cfg nErr op A).1 = List.range (k + 1) ∧
    (executeWithRetry cfg nErr op A).2 =
      (if k = effMaxRetries cfg then
        Except.error (JSErr.retryError (retryMessage (effMaxRetries cfg) ek.message)
          (effMaxRetries cfg) (some cfg.provider) (some ek))
      else Except.error ek) := by
  have h := retryGo_stop A (effMaxRetries cfg) (effRetryDelay cfg) nErr cfg.provider op
    e k ek hAk (Or.inl hNR) (effMaxRetries cfg + 1) 0 none (by omega) (by omega) hk
    (fun i _ h2 => hpre i h2) (fun i _ h2 => hpreR i h2)
  refine ⟨?_, h.2.2⟩
  rw [List.range_eq_range']
  simpa using h.1

/-- Witness for claim C2's theorem: a first-attempt non-retryable
failure stops after one attempt and propagates unwrapped. -/
theorem nonRetryable_stops_witness :
    (0 ≤ effMaxRetries { provider := "openai", apiKey := "k" } ∧
      isRetryableError (some err400) = false) ∧
    attemptsOf (executeWithRetry { provider := "openai", apiKey := "k" } 1 "chat"
      (fun _ => (Except.error err400 : Except JSErr ChatResult))).1 = [0] ∧
    (executeWithRetry { provider := "openai", apiKey := "k" } 1 "chat"
      (fun _ => (Except.error err400 : Except JSErr ChatResult))).2 = Except.error err400 := by
  have h := nonRetryable_stops_and_propagates { provider := "openai", apiKey := "k" } 1 "chat"
    (fun _ => (Except.error err400 : Except JSErr ChatResult)) (fun _ => err400) 0 err400
    (by decide) (fun i hi => absurd hi (Nat.not_lt_zero i))
    (fun i hi => absurd hi (Nat.not_lt_zero i)) rfl rfl
  refine ⟨⟨by decide, rfl⟩, by simpa using h.1, ?_⟩
  rw [h.2]
  rfl

/-- The attempt outcomes of claim C2's counterexample run: a retryable
failure, then a non-retryable one on the final attempt. -/
def attemptsC2 : Nat → Except JSErr ChatResult := fun i =>
  if i = 0 then Except.error err500 else Except.error err400

/-- Claim C2 counterexample: with `maxRetries = 1`, a retryable failure
on attempt 0 followed by a non-retryable HTTP-400 failure on attempt 1
ends with that non-retryable error WRAPPED in a `RetryError` — the claim
says a non-retryable failure is never wrapped. -/
theorem nonRetryable_final_attempt_wrapped_counterexample :
    isRetryableError (some err400) = false ∧
    attemptsOf (executeWithRetry
      { provider := "openai", apiKey := "k", maxRetries := some 1, retryDelay := some 1 }
      0 "chat" attemptsC2).1 = [0, 1] ∧
    (executeWithRetry
      { provider := "openai", apiKey := "k", maxRetries := some 1, retryDelay := some 1 }
      0 "chat" attemptsC2).2 =
      Except.error (JSErr.retryError "Failed after 1 retries: bad request" 1
        (some "openai") (some err400)) :=
  ⟨rfl, rfl, rfl⟩

/-! ## Claim C3 -/

/-- Claim C3 (corrected): with `maxRetries = N ≥ 1` configured and every
attempt failing retryably, exactly `N + 1` attempts occur and the run
ends with a `RetryError` wrapping the last failure, carrying
`retries = N` and the provider name.  (For `N = 0` see the
counterexample: `maxRetries || 3` replaces a configured 0 by 3.) -/
theorem retry_exhaustion_attempts_and_retryError {T : Type} (cfg : StoredConfig)
    (nErr : Nat) (op : String) (A : Nat → Except JSErr T) (e : Nat → JSErr) (N : Nat)
    (hN : 1 ≤ N) (hcfg : cfg.maxRetries = some N)
    (hA : ∀ i, i ≤ N → A i = Except.error (e i))
    (hr : ∀ i, i ≤ N → isRetryableError (some (e i)) = true) :
    attemptsOf (executeWithRetry cfg nErr op A).1 = List.range (N + 1) ∧
    (executeWithRetry cfg nErr op A).2 =
      Except.error (JSErr.retryError (retryMessage N (e N).message) N
        (some cfg.provider) (some (e N))) ∧
    (JSErr.retryError (retryMessage N (e N).message) N
      (some cfg.provider) (some (e N))).retries = some N := by
  have hmr : effMaxRetries cfg = N := by
    simp only [effMaxRetries, hcfg, jsOrNat]
    rw [if_neg (by omega)]
  have h := retryGo_stop A (effMaxRetries cfg) (effRetryDelay cfg) nErr cfg.provider op
    e (effMaxRetries cfg) (e (effMaxRetries cfg)) (hA _ (by omega)) (Or.inr rfl)
    (effMaxRetries cfg + 1) 0 none (by omega) (by omega) le_rfl
    (fun i _ h2 => hA i (by omega)) (fun i _ h2 => hr i (by omega))
  rw [← hmr]
  refine ⟨?_, ?_, rfl⟩
  · rw [List.range_eq_range']
    simpa using h.1
  · have h3 := h.2.2
    rw [if_pos rfl] at h3
    exact h3

/-- The always-failing retryable attempt sequence used by claim C3's
witness and counterexample. -/
def attemptsAll500 : Nat → Except JSErr ChatResult := fun _ => Except.error err500

/-- Witness for claim C3's theorem at the claim's own instance
`maxRetries = 2`: exactly 3 attempts and a terminal `RetryError` with
`retries = 2`. -/
theorem retry_exhaustion_witness :
    ((1 : Nat) ≤ 2 ∧
      ({ provider := "openai", apiKey := "k", maxRetries := some 2, retryDelay := some 1 }
        : StoredConfig).maxRetries = some 2) ∧
    attemptsOf (executeWithRetry
      { provider := "openai", apiKey := "k", maxRetries := some 2, retryDelay := some 1 }
      1 "chat" attemptsAll500).1 = [0, 1, 2] ∧
    (executeWithRetry
      { provider := "openai", apiKey := "k", maxRetries := some 2, retryDelay := some 1 }
      1 "chat" attemptsAll500).2 =
      Except.error (JSErr.retryError "Failed after 2 retries: server exploded" 2
        (some "openai") (some err500)) := by
  have h := retry_exhaustion_attempts_and_retryError
    { provider := "openai", apiKey := "k", maxRetries := some 2, retryDelay := some 1 }
    1 "chat" attemptsAll500 (fun _ => err500) 2 (by decide) rfl
    (fun i _ => rfl) (fun i _ => rfl)
  refine ⟨⟨by decide, rfl⟩, ?_, ?_⟩
  · rw [h.1]
    rfl
  · rw [h.2.1]
    rfl

/-- Claim C3 counterexample: with configured `maxRetries = 0` (and an
always-failing retryable provider) the engine does NOT make exactly 1
attempt with `retries = 0`: `config.maxRetries || 3` treats the
configured 0 as absent, so 4 attempts occur and the terminal
`RetryError` carries `retries = 3`. -/
theorem retry_maxRetries_zero_counterexample :
    ({ provider := "openai", apiKey := "k", maxRetries := some 0 }
      : StoredConfig).maxRetries = some 0 ∧
    attemptsOf (executeWithRetry
      { provider := "openai", apiKey := "k", maxRetries := some 0 }
      0 "chat" attemptsAll500).1 = [0, 1, 2, 3] ∧
    (executeWithRetry
      { provider := "openai", apiKey := "k", maxRetries := some 0 }
      0 "chat" attemptsAll500).2 =
      Except.error (JSErr.retryError "Failed after 3 retries: server exploded" 3
        (some "openai") (some err500)) :=
  ⟨rfl, rfl, rfl⟩

/-! ## Claim C5 -/

/-- Claim C5 (confirmed): a timed-out attempt produces the guard's
`TimeoutError`, which carries no `status`, no `statusCode` and no
network `code`, so the classification deems it not retryable; the run
makes no further attempt after attempt `k` (attempts are exactly
`0..k`) and performs no backoff sleep after the timeout (the `k` sleeps
all belong to the earlier retried attempts), however many retries
remain. -/
theorem timeout_not_retried (cfg : StoredConfig) (nErr : Nat) (op : String)
    (B : Nat → AttemptBehavior ChatResult) (e : Nat → JSErr) (k : Nat)
    (hk : k ≤ effMaxRetries cfg)
    (hpre : ∀ i, i < k → guardedAttempts cfg B i = Except.error (e i))
    (hpreR : ∀ i, i < k → isRetryableError (some (e i)) = true)
    (htm : B k = AttemptBehavior.never ∨
      ∃ d r, B k = AttemptBehavior.completes d r ∧ effTimeout cfg ≤ d) :
    guardedAttempts cfg B k =
      Except.error (JSErr.timeoutError (timeoutMessage cfg) (some cfg.provider)) ∧
    (JSErr.timeoutError (timeoutMessage cfg) (some cfg.provider)).status = none ∧
    (JSErr.timeoutError (timeoutMessage cfg) (some cfg.provider)).statusCode = none ∧
    (JSErr.timeoutError (timeoutMessage cfg) (some cfg.provider)).code = none ∧
    isRetryableError
      (some (JSErr.timeoutError (timeoutMessage cfg) (some cfg.provider))) = false ∧
    attemptsOf (executeWithRetry cfg nErr op (guardedAttempts cfg B)).1 =
      List.range (k + 1) ∧
    sleepsOf (executeWithRetry cfg nErr op (guardedAttempts cfg B)).1 =
      (List.range k).map (fun i => effRetryDelay cfg * 2 ^ i) := by
  have hek : guardedAttempts cfg B k =
      Except.error (JSErr.timeoutError (timeoutMessage cfg) (some cfg.provider)) := by
    rcases htm with h | ⟨d, r, h, hd⟩
    · simp only [guardedAttempts, executeWithTimeout, h]
    · simp only [guardedAttempts, executeWithTimeout, h]
      rw [if_neg (Nat.not_lt.mpr hd)]
  have hnr : isRetryableError
      (some (JSErr.timeoutError (timeoutMessage cfg) (some cfg.provider))) = false := rfl
  have h := retryGo_stop (guardedAttempts cfg B) (effMaxRetries cfg) (effRetryDelay cfg)
    nErr cfg.provider op e k _ hek (Or.inl hnr) (effMaxRetries cfg + 1) 0 none
    (by omega) (by omega) hk (fun i _ h2 => hpre i h2) (fun i _ h2 => hpreR i h2)
  refine ⟨hek, rfl, rfl, rfl, hnr, ?_, ?_⟩
  · rw [List.range_eq_range']
    simpa using h.1
  · rw [List.range_eq_range']
    simpa using h.2.1

/-- A provider whose work never settles. -/
def neverB : Nat → AttemptBehavior ChatResult := fun _ => AttemptBehavior.never

/-- The configuration of claim C5's witness: three retries available, a
50 ms deadline. -/
def cfgGem : StoredConfig :=
  { provider := "gemini", apiKey := "g", maxRetries := some 3, timeout := some 50 }

/-- Witness for claim C5's theorem: with 3 retries available, a timeout
on the first attempt ends the run at once — one attempt, no sleep. -/
theorem timeout_not_retried_witness :
    ((0 : Nat) ≤ effMaxRetries cfgGem ∧ neverB 0 = AttemptBehavior.never) ∧
    attemptsOf (executeWithRetry cfgGem 1 "chat" (guardedAttempts cfgGem neverB)).1 = [0] ∧
    sleepsOf (executeWithRetry cfgGem 1 "chat" (guardedAttempts cfgGem neverB)).1 = [] := by
  have h := timeout_not_retried cfgGem 1 "chat" neverB (fun _ => err500) 0 (by decide)
    (fun i hi => absurd hi (Nat.not_lt_zero i))
    (fun i hi => absurd hi (Nat.not_lt_zero i)) (Or.inl rfl)
  exact ⟨⟨by decide, rfl⟩, by simpa using h.2.2.2.2.2.1, by simpa using h.2.2.2.2.2.2⟩

/-! ## Claim C1 -/

theorem responseHookCallsOf_append (l1 l2 : List CPEvent) :
    responseHookCallsOf (l1 ++ l2) = responseHookCallsOf l1 ++ responseHookCallsOf l2 :=
  List.filterMap_append l1 l2 _

theorem responseHookCallsOf_errDispatch (n : Nat) (e : JSErr) :
    responseHookCallsOf (errDispatch n e) = [] := by
  simp [responseHookCallsOf, errDispatch, List.filterMap_map]

theorem responseHookCallsOf_reqEvts (n : Nat) :
    responseHookCallsOf ((List.range n).map CPEvent.requestDispatch) = [] := by
  simp [responseHookCallsOf, List.filterMap_map]

theorem responseHookCallsOf_respEvts (l : List Nat) (r : ChatResult) :
    responseHookCallsOf (l.map (fun i => CPEvent.responseDispatch i r)) =
      l.map (fun i => (i, r)) := by
  induction l with
  | nil => rfl
  | cons x xs ih =>
    simpa [responseHookCallsOf, List.filterMap_cons] using ih

theorem responseHookCallsOf_cons_started (i : Nat) (tr : List CPEvent) :
    responseHookCallsOf (CPEvent.attemptStarted i :: tr) = responseHookCallsOf tr := rfl

theorem responseHookCallsOf_cons_sleep (ms : Nat) (tr : List CPEvent) :
    responseHookCallsOf (CPEvent.sleep ms :: tr) = responseHookCallsOf tr := rfl

theorem responseHookCallsOf_cons_built (r : JSErr) (tr : List CPEvent) :
    responseHookCallsOf (CPEvent.retryErrorBuilt r :: tr) = responseHookCallsOf tr := rfl

theorem responseHookCallsOf_nil : responseHookCallsOf [] = [] := rfl

theorem responseHookCallsOf_retryGo {T : Type} (A : Nat → Except JSErr T)
    (mr rd nErr : Nat) (p op : String) :
    ∀ rem a last, responseHookCallsOf (retryGo A mr rd nErr p op a rem last).1 = [] := by
  intro rem
  induction rem with
  | zero => intro a last; rfl
  | succ rem ih =>
    intro a last
    cases hA : A a with
    | ok v => simp [retryGo, hA, responseHookCallsOf]
    | error e =>
      by_cases hc : a < mr ∧ isRetryableError (some e) = true
      · simp [retryGo, hA, hc, responseHookCallsOf_append, responseHookCallsOf_errDispatch,
          responseHookCallsOf_cons_started, responseHookCallsOf_cons_sleep,
          responseHookCallsOf_cons_built, responseHookCallsOf_nil, ih]
      · by_cases he : a = mr
        · subst he
          simp [retryGo, hA, hc, responseHookCallsOf_append, responseHookCallsOf_errDispatch,
            responseHookCallsOf_cons_started, responseHookCallsOf_cons_sleep,
            responseHookCallsOf_cons_built, responseHookCallsOf_nil]
        · simp [retryGo, hA, hc, he, responseHookCallsOf_append, responseHookCallsOf_errDispatch,
            responseHookCallsOf_cons_started, responseHookCallsOf_cons_sleep,
            responseHookCallsOf_cons_built, responseHookCallsOf_nil]

/-- Claim C1 (corrected): on a successful chat-path call every
registered response hook is invoked exactly once (in registration
order), but the argument each receives is the RAW result produced by
the retry engine — not yet carrying the orchestrator's provider tag or
model default.  The decorated result (provider tag set to the configured
provider, model defaulted from the configuration) is only what
`callProvider` returns to the caller, built after hook dispatch. -/
theorem callProvider_responseHooks_raw_and_decorated_return (cfg : StoredConfig)
    (nReq nResp nErr : Nat) (B : Nat → AttemptBehavior ChatResult)
    (tr : List CPEvent) (r : ChatResult)
    (h : executeWithRetry cfg nErr "chat" (guardedAttempts cfg B) = (tr, Except.ok r)) :
    responseHookCallsOf (callProvider cfg nReq nResp nErr B).1 =
      (List.range nResp).map (fun i => (i, r)) ∧
    (callProvider cfg nReq nResp nErr B).2 = Except.ok (decorate cfg r) ∧
    decorate cfg r =
      { r with provider := some cfg.provider, model := jsOrStr r.model cfg.model } := by
  have hre : responseHookCallsOf tr = [] := by
    have h2 := responseHookCallsOf_retryGo (guardedAttempts cfg B) (effMaxRetries cfg)
      (effRetryDelay cfg) nErr cfg.provider "chat" (effMaxRetries cfg + 1) 0 none
    have h1 : tr = (executeWithRetry cfg nErr "chat" (guardedAttempts cfg B)).1 := by
      rw [h]
    rw [h1]
    exact h2
  unfold callProvider
  rw [h]
  refine ⟨?_, rfl, rfl⟩
  simp [responseHookCallsOf_append, responseHookCallsOf_reqEvts, hre,
    responseHookCallsOf_respEvts]

/-- The behavior of claim C1's witness run: the provider succeeds
immediately with a bare result. -/
def okHiB : Nat → AttemptBehavior ChatResult := fun _ =>
  AttemptBehavior.completes 0 (Except.ok { content := "hi" })

/-- The configuration of claim C1's witness run. -/
def cfgOA : StoredConfig :=
  { provider := "openai", apiKey := "k", model := some "gpt-4o-mini",
    temperature := some (mkRat 7 10), timeout := some 30000, maxRetries := some 3,
    retryDelay := some 1000 }

/-- Witness for claim C1's theorem at a concrete run. -/
theorem callProvider_responseHooks_raw_witness :
    executeWithRetry cfgOA 0 "chat" (guardedAttempts cfgOA okHiB) =
      ([CPEvent.attemptStarted 0], Except.ok { content := "hi" }) ∧
    responseHookCallsOf (callProvider cfgOA 0 1 0 okHiB).1 =
      [(0, { content := "hi" })] ∧
    (callProvider cfgOA 0 1 0 okHiB).2 = Except.ok (decorate cfgOA { content := "hi" }) := by
  have h := callProvider_responseHooks_raw_and_decorated_return cfgOA 0 1 0 okHiB
    [CPEvent.attemptStarted 0] { content := "hi" } rfl
  refine ⟨rfl, ?_, h.2.1⟩
  rw [h.1]
  rfl

/-- Claim C1 counterexample: in the witness run the (single) response
hook receives the raw result — whose `provider` and `model` fields are
still `undefined` — which differs from the decorated result handed back
to the caller, so the hook does NOT receive the decorated result. -/
theorem callProvider_responseHooks_decorated_counterexample :
    responseHookCallsOf (callProvider cfgOA 0 1 0 okHiB).1 =
      [(0, { content := "hi" })] ∧
    (callProvider cfgOA 0 1 0 okHiB).2 =
      Except.ok { content := "hi", provider := some "openai", model := some "gpt-4o-mini" } ∧
    ({ content := "hi" } : ChatResult) ≠
      { content := "hi", provider := some "openai", model := some "gpt-4o-mini" } :=
  ⟨rfl, rfl, by decide⟩


/-! ## Claim C10 -/

theorem errorHookCallsOf_append (l1 l2 : List CPEvent) :
    errorHookCallsOf (l1 ++ l2) = errorHookCallsOf l1 ++ errorHookCallsOf l2 :=
  List.filterMap_append l1 l2 _

theorem errorHookCallsOf_nil : errorHookCallsOf [] = [] := rfl

theorem errorHookCallsOf_cons_started (i : Nat) (tr : List CPEvent) :
    errorHookCallsOf (CPEvent.attemptStarted i :: tr) = errorHookCallsOf tr := rfl

theorem errorHookCallsOf_cons_sleep (ms : Nat) (tr : List CPEvent) :
    errorHookCallsOf (CPEvent.sleep ms :: tr) = errorHookCallsOf tr := rfl

theorem errorHookCallsOf_cons_built (r : JSErr) (tr : List CPEvent) :
    errorHookCallsOf (CPEvent.retryErrorBuilt r :: tr) = errorHookCallsOf tr := rfl

theorem errorHookCallsOf_errDispatch (n : Nat) (e : JSErr) :
    errorHookCallsOf (errDispatch n e) = (List.range n).map (fun i => (i, e)) := by
  unfold errorHookCallsOf errDispatch
  induction List.range n with
  | nil => rfl
  | cons x xs ih => simpa [List.filterMap_cons] using ih

theorem built_not_mem_errDispatch (n : Nat) (e : JSErr) (r : JSErr) :
    CPEvent.retryErrorBuilt r ∉ errDispatch n e := by
  simp [errDispatch]

/-- An engine-built `RetryError` is never classified retryable: it
carries no status field and no network code. -/
theorem retryErr_not_retryable (m : String) (n : Nat) (p : Option String)
    (o : Option JSErr) :
    isRetryableError (some (JSErr.retryError m n p o)) = false := rfl

/-- No error equals the `RetryError` wrapping it (structural: the
wrapper strictly contains the wrapped error). -/
theorem ne_retryWrap (e : JSErr) (m : String) (n : Nat) (p : Option String) :
    e ≠ JSErr.retryError m n p (some e) := by
  intro h
  have hs := congrArg sizeOf h
  simp [JSErr.retryError.sizeOf_spec] at hs
  omega

/-- The error-hook calls attempt `j` contributes: none when the attempt
succeeds, one call per registered hook with the raw failure when it
fails. -/
def attemptDispatch {T : Type} (A : Nat → Except JSErr T) (nErr : Nat) (j : Nat) :
    List (Nat × JSErr) :=
  match A j with
  | Except.ok _ => []
  | Except.error e2 => (List.range nErr).map (fun i => (i, e2))

theorem retryGo_errorHookCalls {T : Type} (A : Nat → Except JSErr T)
    (mr rd nErr : Nat) (p op : String) :
    ∀ rem a last,
      errorHookCallsOf (retryGo A mr rd nErr p op a rem last).1 =
        (attemptsOf (retryGo A mr rd nErr p op a rem last).1).flatMap
          (attemptDispatch A nErr) := by
  intro rem
  induction rem with
  | zero => intro a last; rfl
  | succ rem ih =>
    intro a last
    cases hA : A a with
    | ok v =>
      simp [retryGo, hA, errorHookCallsOf_nil, errorHookCallsOf_cons_started,
        attemptsOf_cons_started, attemptsOf_nil, attemptDispatch]
    | error e =>
      by_cases hc : a < mr ∧ isRetryableError (some e) = true
      · simp only [retryGo, hA, if_pos hc]
        simp [errorHookCallsOf_append, errorHookCallsOf_cons_started,
          errorHookCallsOf_errDispatch, errorHookCallsOf_cons_sleep,
          errorHookCallsOf_cons_built, errorHookCallsOf_nil,
          attemptsOf_append, attemptsOf_cons_started, attemptsOf_errDispatch,
          attemptsOf_cons_sleep, attemptsOf_cons_built, attemptsOf_nil, ih, hA,
          attemptDispatch]
      · by_cases he : a = mr
        · subst he
          simp only [retryGo, hA, if_neg hc]
          simp [errorHookCallsOf_append, errorHookCallsOf_cons_started,
            errorHookCallsOf_errDispatch, errorHookCallsOf_cons_built,
            errorHookCallsOf_nil, attemptsOf_append, attemptsOf_cons_started,
            attemptsOf_errDispatch, attemptsOf_cons_built, attemptsOf_nil, hA,
            attemptDispatch]
        · simp only [retryGo, hA, if_neg hc, if_neg he]
          simp [errorHookCallsOf_append, errorHookCallsOf_cons_started,
            errorHookCallsOf_errDispatch, errorHookCallsOf_nil,
            attemptsOf_append, attemptsOf_cons_started, attemptsOf_errDispatch,
            attemptsOf_nil, hA, attemptDispatch]


theorem retryGo_built {T : Type} (A : Nat → Except JSErr T)
    (mr rd nErr : Nat) (p op : String) :
    ∀ rem a last r,
      CPEvent.retryErrorBuilt r ∈ (retryGo A mr rd nErr p op a rem last).1 →
      ∃ pre e0,
        (retryGo A mr rd nErr p op a rem last).1 =
          pre ++ CPEvent.attemptStarted mr :: (errDispatch nErr e0
            ++ [CPEvent.retryErrorBuilt r]) ∧
        A mr = Except.error e0 ∧
        r = JSErr.retryError (retryMessage mr e0.message) mr (some p) (some e0) ∧
        (retryGo A mr rd nErr p op a rem last).2 = Except.error r := by
  intro rem
  induction rem with
  | zero => intro a last r hmem; cases hmem
  | succ rem ih =>
    intro a last r hmem
    cases hA : A a with
    | ok v =>
      rw [show (retryGo A mr rd nErr p op a (rem + 1) last) =
        ([CPEvent.attemptStarted a], Except.ok v) by simp [retryGo, hA]] at hmem ⊢
      simp at hmem
    | error e =>
      by_cases hc : a < mr ∧ isRetryableError (some e) = true
      · rw [show (retryGo A mr rd nErr p op a (rem + 1) last) =
          (CPEvent.attemptStarted a :: (errDispatch nErr e
            ++ CPEvent.sleep (rd * 2 ^ a) :: (retryGo A mr rd nErr p op (a + 1) rem (some e)).1),
           (retryGo A mr rd nErr p op (a + 1) rem (some e)).2) by
            simp [retryGo, hA, hc]] at hmem ⊢
        have hrest : CPEvent.retryErrorBuilt r ∈ (retryGo A mr rd nErr p op (a + 1) rem (some e)).1 := by
          rcases List.mem_cons.mp hmem with h1 | h1
          · cases h1
          · rcases List.mem_append.mp h1 with h2 | h2
            · exact absurd h2 (built_not_mem_errDispatch nErr e r)
            · rcases List.mem_cons.mp h2 with h3 | h3
              · cases h3
              · exact h3
        rcases ih (a + 1) (some e) r hrest with ⟨pre, e0, htr, hAmr, hr, hout⟩
        refine ⟨CPEvent.attemptStarted a :: (errDispatch nErr e
          ++ CPEvent.sleep (rd * 2 ^ a) :: pre), e0, ?_, hAmr, hr, hout⟩
        rw [htr]
        simp
      · by_cases he : a = mr
        · subst he
          rw [show (retryGo A a rd nErr p op a (rem + 1) last) =
            (CPEvent.attemptStarted a :: (errDispatch nErr e
              ++ [CPEvent.retryErrorBuilt (JSErr.retryError (retryMessage a e.message) a
                (some p) (some e))]),
             Except.error (JSErr.retryError (retryMessage a e.message) a (some p) (some e))) by
              simp [retryGo, hA, hc]] at hmem ⊢
          have hre : r = JSErr.retryError (retryMessage a e.message) a (some p) (some e) := by
            rcases List.mem_cons.mp hmem with h1 | h1
            · cases h1
            · rcases List.mem_append.mp h1 with h2 | h2
              · exact absurd h2 (built_not_mem_errDispatch nErr e r)
              · rcases List.mem_cons.mp h2 with h3 | h3
                · cases h3; rfl
                · cases h3
          subst hre
          exact ⟨[], e, rfl, hA, rfl, rfl⟩
        · rw [show (retryGo A mr rd nErr p op a (rem + 1) last) =
            (CPEvent.attemptStarted a :: errDispatch nErr e, Except.error e) by
              simp [retryGo, hA, hc, he]] at hmem ⊢
          rcases List.mem_cons.mp hmem with h1 | h1
          · cases h1
          · exact absurd h1 (built_not_mem_errDispatch nErr e r)


theorem retryGo_dispatch_ne_built {T : Type} (A : Nat → Except JSErr T)
    (mr rd nErr : Nat) (p op : String) :
    ∀ rem a last r,
      CPEvent.retryErrorBuilt r ∈ (retryGo A mr rd nErr p op a rem last).1 →
      ∀ pr ∈ errorHookCallsOf (retryGo A mr rd nErr p op a rem last).1, pr.2 ≠ r := by
  intro rem
  induction rem with
  | zero => intro a last r hmem; cases hmem
  | succ rem ih =>
    intro a last r hmem pr hpr
    cases hA : A a with
    | ok v =>
      rw [show (retryGo A mr rd nErr p op a (rem + 1) last) =
        ([CPEvent.attemptStarted a], Except.ok v) by simp [retryGo, hA]] at hmem
      simp at hmem
    | error e =>
      by_cases hc : a < mr ∧ isRetryableError (some e) = true
      · rw [show (retryGo A mr rd nErr p op a (rem + 1) last) =
          (CPEvent.attemptStarted a :: (errDispatch nErr e
            ++ CPEvent.sleep (rd * 2 ^ a) :: (retryGo A mr rd nErr p op (a + 1) rem (some e)).1),
           (retryGo A mr rd nErr p op (a + 1) rem (some e)).2) by
            simp [retryGo, hA, hc]] at hmem hpr
        have hrest : CPEvent.retryErrorBuilt r ∈
            (retryGo A mr rd nErr p op (a + 1) rem (some e)).1 := by
          rcases List.mem_cons.mp hmem with h1 | h1
          · cases h1
          · rcases List.mem_append.mp h1 with h2 | h2
            · exact absurd h2 (built_not_mem_errDispatch nErr e r)
            · rcases List.mem_cons.mp h2 with h3 | h3
              · cases h3
              · exact h3
        rw [errorHookCallsOf_cons_started, errorHookCallsOf_append,
          errorHookCallsOf_errDispatch, errorHookCallsOf_cons_sleep] at hpr
        rcases List.mem_append.mp hpr with h2 | h2
        · -- pr is a dispatch of the retryable failure e; r is a RetryError
          rcases List.mem_map.mp h2 with ⟨i, _, hi⟩
          rcases retryGo_built A mr rd nErr p op rem (a + 1) (some e) r hrest with
            ⟨pre, e0, _, _, hr, _⟩
          intro hcon
          have h4 : isRetryableError (some r) = false := by
            rw [hr]; exact retryErr_not_retryable _ _ _ _
          rw [← hcon, ← hi] at h4
          exact absurd (hc.2.symm.trans h4) (by decide)
        · exact ih (a + 1) (some e) r hrest pr h2
      · by_cases he : a = mr
        · subst he
          rw [show (retryGo A a rd nErr p op a (rem + 1) last) =
            (CPEvent.attemptStarted a :: (errDispatch nErr e
              ++ [CPEvent.retryErrorBuilt (JSErr.retryError (retryMessage a e.message) a
                (some p) (some e))]),
             Except.error (JSErr.retryError (retryMessage a e.message) a (some p) (some e))) by
              simp [retryGo, hA, hc]] at hmem hpr
          have hre : r = JSErr.retryError (retryMessage a e.message) a (some p) (some e) := by
            rcases List.mem_cons.mp hmem with h1 | h1
            · cases h1
            · rcases List.mem_append.mp h1 with h2 | h2
              · exact absurd h2 (built_not_mem_errDispatch nErr e r)
              · rcases List.mem_cons.mp h2 with h3 | h3
                · cases h3; rfl
                · cases h3
          subst hre
          rw [errorHookCallsOf_cons_started, errorHookCallsOf_append,
            errorHookCallsOf_errDispatch, errorHookCallsOf_cons_built,
            errorHookCallsOf_nil, List.append_nil] at hpr
          rcases List.mem_map.mp hpr with ⟨i, _, hi⟩
          rw [← hi]
          exact ne_retryWrap e _ _ _
        · rw [show (retryGo A mr rd nErr p op a (rem + 1) last) =
            (CPEvent.attemptStarted a :: errDispatch nErr e, Except.error e) by
              simp [retryGo, hA, hc, he]] at hmem
          rcases List.mem_cons.mp hmem with h1 | h1
          · cases h1
          · exact absurd h1 (built_not_mem_errDispatch nErr e r)

/-- Claim C10 (confirmed): every error-hook invocation of a run receives
the raw failure of an individual attempt (one full hook dispatch per
failed attempt, in attempt order, including per-attempt timeout
failures); when retry exhaustion occurs, the terminal `RetryError` is
constructed strictly after the final attempt's error-hook dispatch —
it is the last event of the trace — and no error hook ever receives
that `RetryError` as its argument. -/
theorem errorHooks_raw_failures_retryError_last (cfg : StoredConfig) (nErr : Nat)
    (op : String) (B : Nat → AttemptBehavior ChatResult) (r : JSErr)
    (hb : CPEvent.retryErrorBuilt r ∈
      (executeWithRetry cfg nErr op (guardedAttempts cfg B)).1) :
    errorHookCallsOf (executeWithRetry cfg nErr op (guardedAttempts cfg B)).1 =
      (attemptsOf (executeWithRetry cfg nErr op (guardedAttempts cfg B)).1).flatMap
        (attemptDispatch (guardedAttempts cfg B) nErr) ∧
    (∃ pre e0,
      (executeWithRetry cfg nErr op (guardedAttempts cfg B)).1 =
        pre ++ CPEvent.attemptStarted (effMaxRetries cfg) :: (errDispatch nErr e0
          ++ [CPEvent.retryErrorBuilt r]) ∧
      guardedAttempts cfg B (effMaxRetries cfg) = Except.error e0 ∧
      r = JSErr.retryError (retryMessage (effMaxRetries cfg) e0.message)
        (effMaxRetries cfg) (some cfg.provider) (some e0) ∧
      (executeWithRetry cfg nErr op (guardedAttempts cfg B)).2 = Except.error r) ∧
    (∀ pr ∈ errorHookCallsOf (executeWithRetry cfg nErr op (guardedAttempts cfg B)).1,
      pr.2 ≠ r) := by
  unfold executeWithRetry at hb ⊢
  exact ⟨retryGo_errorHookCalls (guardedAttempts cfg B) (effMaxRetries cfg)
      (effRetryDelay cfg) nErr cfg.provider op (effMaxRetries cfg + 1) 0 none,
    retryGo_built (guardedAttempts cfg B) (effMaxRetries cfg) (effRetryDelay cfg)
      nErr cfg.provider op (effMaxRetries cfg + 1) 0 none r hb,
    retryGo_dispatch_ne_built (guardedAttempts cfg B) (effMaxRetries cfg)
      (effRetryDelay cfg) nErr cfg.provider op (effMaxRetries cfg + 1) 0 none r hb⟩

/-- The configuration of claim C10's witness: one retry, 1 ms base
delay, 50 ms deadline. -/
def cfgC10 : StoredConfig :=
  { provider := "openai", apiKey := "k", maxRetries := some 1, retryDelay := some 1,
    timeout := some 50 }

/-- The behavior of claim C10's witness: a retryable HTTP-500 failure,
then a hanging call that times out on the final attempt. -/
def behaviorC10 : Nat → AttemptBehavior ChatResult := fun i =>
  if i = 0 then AttemptBehavior.completes 0 (Except.error err500)
  else AttemptBehavior.never

/-- The terminal `RetryError` of claim C10's witness run: it wraps the
final attempt's `TimeoutError`. -/
def rC10 : JSErr :=
  JSErr.retryError (retryMessage 1 (timeoutMessage cfgC10)) 1 (some "openai")
    (some (JSErr.timeoutError (timeoutMessage cfgC10) (some "openai")))

/-- Witness for claim C10's theorem on a concrete exhaustion run whose
final attempt fails with a per-attempt `TimeoutError`. -/
theorem errorHooks_raw_failures_witness :
    CPEvent.retryErrorBuilt rC10 ∈
      (executeWithRetry cfgC10 1 "chat" (guardedAttempts cfgC10 behaviorC10)).1 ∧
    (∀ pr ∈ errorHookCallsOf
        (executeWithRetry cfgC10 1 "chat" (guardedAttempts cfgC10 behaviorC10)).1,
      pr.2 ≠ rC10) := by
  have htr : (executeWithRetry cfgC10 1 "chat" (guardedAttempts cfgC10 behaviorC10)).1 =
      [CPEvent.attemptStarted 0, CPEvent.errorDispatch 0 err500, CPEvent.sleep 1,
       CPEvent.attemptStarted 1,
       CPEvent.errorDispatch 0 (JSErr.timeoutError (timeoutMessage cfgC10) (some "openai")),
       CPEvent.retryErrorBuilt rC10] := rfl
  have hb : CPEvent.retryErrorBuilt rC10 ∈
      (executeWithRetry cfgC10 1 "chat" (guardedAttempts cfgC10 behaviorC10)).1 := by
    rw [htr]
    simp
  exact ⟨hb,
    (errorHooks_raw_failures_retryError_last cfgC10 1 "chat" behaviorC10 rC10 hb).2.2⟩


end AIPW
